import Mathlib

/-! Shallow embedding of `src/invoice_generator.py` (class `InvoiceGenerator`):
the loaded-record model, reference resolution (`load_customer_data`,
`load_product_data`), invoice assembly (`get_invoice_data`), line-item
enrichment (`prepare_invoice_items`), pagination and HTML composition
(`generate_html`), together with proofs of the specification claims.

Numbers are modelled exactly: Python ints as `Int`, Python floats as `ℚ`
(float rounding never decides any claim below; formatting of amounts is
modelled up to rounding mode). -/

namespace InvoiceGen

/-- Python scalar values as they occur in loaded CSV/JSON records:
strings, ints (pandas int64 / JSON int), floats (modelled as rationals)
and `None`. -/
inductive Scalar where
  | str : String → Scalar
  | int : Int → Scalar
  | num : ℚ → Scalar
  | none : Scalar
deriving DecidableEq, Repr

/-- A loaded record: a mapping from field names to scalar values (the
`dict` rows produced by `load_csv_data` and flat `load_json_data`). -/
abbrev RawRecord := List (String × Scalar)

/-- Dictionary lookup `d[k]`: the first binding of the key, if any. -/
def getField (r : RawRecord) (k : String) : Option Scalar :=
  (r.find? (fun p => p.1 == k)).map (fun p => p.2)

/-- Dictionary lookup with default, `d.get(k, default)`. -/
def getFieldD (r : RawRecord) (k : String) (d : Scalar) : Scalar :=
  (getField r k).getD d

/-- Strip leading and trailing whitespace (Python `int`/`float` accept it). -/
def trimWs (cs : List Char) : List Char :=
  ((cs.dropWhile Char.isWhitespace).reverse.dropWhile Char.isWhitespace).reverse

/-- Decimal value of a digit list (assumed all digits). -/
def natOfDigits (cs : List Char) : Nat :=
  cs.foldl (fun acc c => acc * 10 + (c.toNat - 48)) 0

/-- Parse a nonempty all-digit list; `Option.none` otherwise. -/
def parseNatStr (cs : List Char) : Option Nat :=
  if !cs.isEmpty && cs.all Char.isDigit then some (natOfDigits cs) else Option.none

/-- Python `int(s)` on a string: optional surrounding whitespace, optional
sign, decimal digits; anything else raises `ValueError` (here:
`Option.none`).  Underscore digit grouping is not modelled. -/
def parseIntStr (s : String) : Option Int :=
  match trimWs s.toList with
  | '+' :: rest => (parseNatStr rest).map Int.ofNat
  | '-' :: rest => (parseNatStr rest).map (fun n => -(Int.ofNat n))
  | rest => (parseNatStr rest).map Int.ofNat

/-- Python `int(f)` on a float truncates toward zero. -/
def ratTrunc (q : ℚ) : Int :=
  if 0 ≤ q then ⌊q⌋ else ⌈q⌉

/-- Python `int(x)` on a scalar; `Option.none` models the raised
`ValueError`/`TypeError`. -/
def pyInt : Scalar → Option Int
  | Scalar.str s => parseIntStr s
  | Scalar.int n => some n
  | Scalar.num q => some (ratTrunc q)
  | Scalar.none => Option.none

/-- Python `float(s)` on a string: optional whitespace and sign, decimal
digits, optional fractional part.  Exponent/`inf`/`nan` forms and
underscore grouping are not modelled (no claim touches them). -/
def parseFloatStr (s : String) : Option ℚ :=
  let cs := trimWs s.toList
  let sb : ℚ × List Char :=
    match cs with
    | '+' :: r => (1, r)
    | '-' :: r => (-1, r)
    | r => (1, r)
  let ip := sb.2.takeWhile Char.isDigit
  let rest := sb.2.dropWhile Char.isDigit
  match rest with
  | [] => if ip.isEmpty then Option.none else some (sb.1 * (natOfDigits ip : ℚ))
  | '.' :: frac =>
    if frac.all Char.isDigit && !(ip.isEmpty && frac.isEmpty) then
      some (sb.1 * ((natOfDigits ip : ℚ) + (natOfDigits frac : ℚ) / ((10 : ℚ) ^ frac.length)))
    else Option.none
  | _ => Option.none

/-- Python `float(x)` on a scalar; `Option.none` models the raised
`ValueError`/`TypeError`. -/
def pyFloat : Scalar → Option ℚ
  | Scalar.str s => parseFloatStr s
  | Scalar.int n => some (n : ℚ)
  | Scalar.num q => some q
  | Scalar.none => Option.none

/-- Rendering of a float by `str` — approximated for non-integral
rationals (Python shortest-float-repr is not reproduced; no claim
stringifies a float). -/
def ratToPyStr (q : ℚ) : String :=
  if q.den = 1 then toString q.num ++ ".0"
  else toString q.num ++ "/" ++ toString q.den

/-- Python `str(x)` on a scalar. -/
def pyStr : Scalar → String
  | Scalar.str s => s
  | Scalar.int n => toString n
  | Scalar.num q => ratToPyStr q
  | Scalar.none => "None"

/-! ## Reference resolution (`load_customer_data`, `load_product_data`)

Each loader scans the flat (CSV) source, when it exists, for the first
record whose `{kind}_id` stringifies equal to the requested id, and on a
miss (or when the CSV file does not exist) falls through to the
structured (JSON) source.  A source that does not exist on disk is
modelled as `Option.none`; one that exists is `some` of its records. -/

/-- The scan inside each loader: first record whose `key` field
stringifies equal to the requested id (`str(rec.get(key)) == str(id)`). -/
def findByField (records : List RawRecord) (key : String) (tid : Scalar) : Option RawRecord :=
  records.find? (fun r => pyStr (getFieldD r key Scalar.none) == pyStr tid)

/-- Loader `InvoiceGenerator.load_customer_data`: CSV source first, JSON second,
first match wins; `Option.none` when neither source yields a match. -/
def load_customer_data (customer_id : Scalar)
    (csvSrc jsonSrc : Option (List RawRecord)) : Option RawRecord :=
  match csvSrc.bind (fun rs => findByField rs "customer_id" customer_id) with
  | some c => some c
  | Option.none => jsonSrc.bind (fun rs => findByField rs "customer_id" customer_id)

/-- Loader `InvoiceGenerator.load_product_data`: CSV source first, JSON second,
first match wins; `Option.none` when neither source yields a match. -/
def load_product_data (product_id : Scalar)
    (csvSrc jsonSrc : Option (List RawRecord)) : Option RawRecord :=
  match csvSrc.bind (fun rs => findByField rs "product_id" product_id) with
  | some p => some p
  | Option.none => jsonSrc.bind (fun rs => findByField rs "product_id" product_id)

/-! ## Line-item enrichment (`prepare_invoice_items`)

Both branches of `prepare_invoice_items` run the same per-item body; only
the origin of the raw item list differs.  The body is `enrichItem`,
folded over the list by `enrichItems`.  `Except.error` models an
exception propagating out of the function. -/

/-- One enriched line item as appended by `prepare_invoice_items`. -/
structure ResolvedItem where
  product_id : Scalar
  name : Scalar
  quantity : Int
  price : ℚ
  total : ℚ
deriving DecidableEq, Repr

/-- The loop body of `prepare_invoice_items` for one raw item:
`quantity = int(item.get('quantity', 1))` (a parse failure raises),
then product resolution; an unresolved (or falsy, i.e. empty) product
record drops the item (`Except.ok Option.none`); otherwise
`price = float(product.get('price', 0))` and the item is emitted with
`total = price * quantity`. -/
def enrichItem (csvSrc jsonSrc : Option (List RawRecord)) (item : RawRecord) :
    Except String (Option ResolvedItem) :=
  match pyInt (getFieldD item "quantity" (Scalar.int 1)) with
  | Option.none => Except.error "ValueError: invalid literal for int()"
  | some quantity =>
    match load_product_data (getFieldD item "product_id" Scalar.none) csvSrc jsonSrc with
    | Option.none => Except.ok Option.none
    | some product =>
      if product = [] then Except.ok Option.none
      else
        match pyFloat (getFieldD product "price" (Scalar.int 0)) with
        | Option.none => Except.error "ValueError: could not convert string to float"
        | some price =>
          Except.ok (some { product_id := getFieldD item "product_id" Scalar.none,
                            name := getFieldD product "name" (Scalar.str "Неизвестный товар"),
                            quantity := quantity,
                            price := price,
                            total := price * (quantity : ℚ) })

/-- The item loop of `prepare_invoice_items`: items are processed in
order, dropped items contribute nothing, and the first exception aborts
the whole call. -/
def enrichItems (csvSrc jsonSrc : Option (List RawRecord)) :
    List RawRecord → Except String (List ResolvedItem)
  | [] => Except.ok []
  | item :: rest =>
    match enrichItem csvSrc jsonSrc item with
    | Except.error e => Except.error e
    | Except.ok r =>
      match enrichItems csvSrc jsonSrc rest with
      | Except.error e => Except.error e
      | Except.ok rs =>
        Except.ok (match r with
                   | some x => x :: rs
                   | Option.none => rs)

/-! ## Invoice assembly (`get_invoice_data`)

The function branches on the file suffix; the two branches are embedded
as two functions.  The CSV branch collects every matching row as a line
item and fills `date` / `customer_id` from matching rows while the
accumulator is still `None` (`if invoice_date is None: ...`).  The JSON
branch returns the first matching record or raises `ValueError`. -/

/-- Predicate `str(row.get('invoice_id')) == str(invoice_id)`. -/
def matchesInvoice (invoice_id : Scalar) (row : RawRecord) : Bool :=
  pyStr (getFieldD row "invoice_id" Scalar.none) == pyStr invoice_id

/-- The dict returned by the CSV branch of `get_invoice_data`. -/
structure InvoiceData where
  invoice_id : Scalar
  customer_id : Scalar
  date : Scalar
  items : List RawRecord
deriving DecidableEq, Repr

/-- One iteration of the CSV-branch loop: a matching row is appended to
the collected items, and `date` / `customer_id` are taken from it only
while the respective accumulator is still `None`. -/
def gidStep (invoice_id : Scalar) (acc : List RawRecord × Scalar × Scalar)
    (row : RawRecord) : List RawRecord × Scalar × Scalar :=
  if matchesInvoice invoice_id row then
    (acc.1 ++ [row],
     (if acc.2.1 = Scalar.none then getFieldD row "date" Scalar.none else acc.2.1),
     (if acc.2.2 = Scalar.none then getFieldD row "customer_id" Scalar.none else acc.2.2))
  else acc

/-- CSV branch of `get_invoice_data`.  Note it never raises: with no
matching row it returns a dict with `None` date/customer and `[]` items. -/
def get_invoice_data_csv (data : List RawRecord) (invoice_id : Scalar) : InvoiceData :=
  let r := data.foldl (gidStep invoice_id) ([], Scalar.none, Scalar.none)
  { invoice_id := invoice_id, customer_id := r.2.2, date := r.2.1, items := r.1 }

/-- A record of a structured (JSON) invoice source: its scalar fields
plus the `items` key when present (assumed, as the code does, to be a
list of dicts). -/
structure JsonRecord where
  fields : RawRecord
  items : Option (List RawRecord)
deriving DecidableEq, Repr

/-- JSON branch of `get_invoice_data`: first record whose `invoice_id`
stringifies equal to the target, else the raised
`ValueError` ("Счёт ... не найден"). -/
def get_invoice_data_json (data : List JsonRecord) (invoice_id : Scalar) :
    Except String JsonRecord :=
  match data.find? (fun rec => matchesInvoice invoice_id rec.fields) with
  | some rec => Except.ok rec
  | Option.none =>
    let istr := pyStr invoice_id
    Except.error s!"Счёт с ID {istr} не найден"

/-- CSV branch of `prepare_invoice_items`: enrich `invoice_data['items']`. -/
def prepare_invoice_items_csv (inv : InvoiceData)
    (csvSrc jsonSrc : Option (List RawRecord)) : Except String (List ResolvedItem) :=
  enrichItems csvSrc jsonSrc inv.items

/-- JSON branch of `prepare_invoice_items`: enrich
`invoice_data.get('items', [])`. -/
def prepare_invoice_items_json (rec : JsonRecord)
    (csvSrc jsonSrc : Option (List RawRecord)) : Except String (List ResolvedItem) :=
  enrichItems csvSrc jsonSrc (rec.items.getD [])

/-! ## Pagination (inside `generate_html`)

`for page_num in range(0, len(items), 10)` slices the enriched item list
into pages of at most 10 rows; every page except the first is preceded
by a repeated header block; each rendered row carries the global index
`page_num + idx` with `idx` counted from 1 inside the page. -/

/-- Items per page, hard-coded in `generate_html`. -/
def itemsPerPage : Nat := 10

/-- One rendered table row: the global (whole-invoice) index and the item. -/
structure Row where
  globalIdx : Nat
  item : ResolvedItem
deriving DecidableEq, Repr

/-- Numbering `enumerate(page_items, 1)` with `global_idx = page_num + idx`. -/
def numberRows : Nat → List ResolvedItem → List Row
  | _, [] => []
  | off, x :: xs => { globalIdx := off + 1, item := x } :: numberRows (off + 1) xs

/-- One page of the rendered invoice. -/
structure Page where
  offset : Nat
  repeatsHeader : Bool
  rows : List Row
deriving DecidableEq, Repr

/-- The page built for loop offset `off`: the slice
`items[off : off + 10]`, a repeated header exactly when `off ≠ 0`. -/
def mkPage (items : List ResolvedItem) (off : Nat) : Page :=
  { offset := off,
    repeatsHeader := off != 0,
    rows := numberRows off ((items.drop off).take itemsPerPage) }

/-- The loop offsets `range(0, n, 10)`. -/
def pageOffsets (n : Nat) : List Nat :=
  (List.range ((n + itemsPerPage - 1) / itemsPerPage)).map (fun k => k * itemsPerPage)

/-- The page structure produced by the `generate_html` pagination loop. -/
def paginate (items : List ResolvedItem) : List Page :=
  (pageOffsets items.length).map (mkPage items)

/-! ## Document composition (`generate_html`)

Markup is modelled as `List Char`; `replaceL` is Python `str.replace`
(all occurrences, leftmost first, non-overlapping; the patterns used by
the code are the fixed nonempty placeholder tokens, so the empty-pattern
corner of Python `replace` is irrelevant and left as the identity). -/

/-- Python `str.replace`: scan left to right; at a position where the
(nonempty) pattern matches, emit the replacement and resume after the
matched occurrence; otherwise copy one character. -/
def replaceL (pat r : List Char) : List Char → List Char
  | [] => []
  | c :: rest =>
    if h : pat ≠ [] ∧ (c :: rest).take pat.length = pat then
      r ++ replaceL pat r ((c :: rest).drop pat.length)
    else
      c :: replaceL pat r rest
termination_by s => s.length
decreasing_by
  · have hp : 0 < pat.length := List.length_pos.mpr h.1
    simp only [List.length_drop, List.length_cons]
    omega
  · simp only [List.length_cons]
    omega

/-- Whether `pat` occurs as a contiguous substring of `s`. -/
def containsSub : List Char → List Char → Bool
  | [], pat => pat == []
  | c :: rest, pat => ((c :: rest).take pat.length == pat) || containsSub rest pat

/-- Insert a thousands separator before every third digit, counting from
the least significant end (input and output both reversed). -/
def groupDigitsAux : Nat → List Char → List Char
  | _, [] => []
  | k, c :: rest =>
    if k % 3 = 0 && k != 0 then ',' :: c :: groupDigitsAux (k + 1) rest
    else c :: groupDigitsAux (k + 1) rest

/-- Thousands grouping of a digit string, as in `f"{x:,.2f}"`. -/
def groupDigits (s : String) : String :=
  String.mk ((groupDigitsAux 0 s.toList.reverse).reverse)

/-- Format `f"{x:,.2f}"`: two fraction digits and comma thousands grouping.
Ties are rounded half-up here; CPython rounds the underlying binary
float half-even — the difference never decides a claim. -/
def formatAmount (q : ℚ) : String :=
  let aq := if q < 0 then -q else q
  let cents := (⌊aq * 100 + 1 / 2⌋).toNat
  let ip := cents / 100
  let fr := cents % 100
  let ipStr := groupDigits (toString ip)
  let frStr := (if fr < 10 then "0" else "") ++ toString fr
  (if q < 0 then "-" else "") ++ ipStr ++ "." ++ frStr

/-- One `<tr>` of an item table (the `items_rows` f-string). -/
def renderRow (r : Row) : String :=
  let gi := toString r.globalIdx
  let nm := pyStr r.item.name
  let q := toString r.item.quantity
  let pr := formatAmount r.item.price
  let tt := formatAmount r.item.total
  "\n            <tr>\n                <td class=\"text-center\">" ++ gi ++
    "</td>\n                <td>" ++ nm ++
    "</td>\n                <td class=\"text-center\">" ++ q ++
    "</td>\n                <td class=\"text-right\">" ++ pr ++
    " ₽</td>\n                <td class=\"text-right\">" ++ tt ++
    " ₽</td>\n            </tr>\n"

/-- The repeated page-break + invoice/customer header block emitted
before every page after the first. -/
def headerRepeat (inv cust : RawRecord) : String :=
  let iid := pyStr (getFieldD inv "invoice_id" (Scalar.str ""))
  let idate := pyStr (getFieldD inv "date" (Scalar.str ""))
  let cname := pyStr (getFieldD cust "name" (Scalar.str ""))
  let cemail := pyStr (getFieldD cust "email" (Scalar.str ""))
  let cphone := pyStr (getFieldD cust "phone" (Scalar.str ""))
  let caddr := pyStr (getFieldD cust "address" (Scalar.str ""))
  "\n    <div class=\"page-break\"></div>\n    <div class=\"header-repeat\">\n        <h2>Счёт №" ++
    iid ++
    "</h2>\n        <div class=\"header-repeat-info\">\n            <div class=\"header-repeat-info-row\">\n                <div class=\"header-repeat-info-cell header-repeat-info-label\">Дата:</div>\n                <div class=\"header-repeat-info-cell\">" ++
    idate ++
    "</div>\n            </div>\n        </div>\n        <div class=\"header-repeat-customer\">\n            <h3>Покупатель:</h3>\n            <div class=\"header-repeat-customer-details\">\n                <p><strong>" ++
    cname ++ "</strong></p>\n                <p>Email: " ++ cemail ++
    "</p>\n                <p>Телефон: " ++ cphone ++
    "</p>\n                <p>Адрес: " ++ caddr ++
    "</p>\n            </div>\n        </div>\n    </div>\n"

/-- The item table of one page, with its row markup inlined. -/
def tableBlock (rows : List Row) : String :=
  let itemsRows := String.join (rows.map renderRow)
  "\n    <div class=\"table-container\">\n        <table>\n            <thead>\n                <tr>\n                    <th style=\"width: 5%;\">№</th>\n                    <th style=\"width: 45%;\">Наименование товара</th>\n                    <th style=\"width: 10%;\" class=\"text-center\">Кол-во</th>\n                    <th style=\"width: 15%;\" class=\"text-right\">Цена за шт.</th>\n                    <th style=\"width: 15%;\" class=\"text-right\">Сумма</th>\n                </tr>\n            </thead>\n            <tbody>\n                " ++
    itemsRows ++
    "\n            </tbody>\n        </table>\n    </div>\n"

/-- The markup one loop iteration appends for a page: the repeated
header block exactly when the page repeats the header, then its table. -/
def renderPage (inv cust : RawRecord) (p : Page) : String :=
  (if p.repeatsHeader then headerRepeat inv cust else "") ++ tableBlock p.rows

/-- The `tables_html` accumulation over all pages. -/
def tablesHtml (inv cust : RawRecord) (items : List ResolvedItem) : String :=
  String.join ((paginate items).map (renderPage inv cust))

/-- Grand total `total_amount = sum(item['total'] for item in items)`. -/
def totalAmount (items : List ResolvedItem) : ℚ :=
  (items.map (fun it => it.total)).sum

/-- The placeholder token strings (`\x7b` and `\x7d` denote the literal
brace characters of the source's `{{...}}` delimiters). -/
def tokInvoiceId : List Char := "\x7b\x7binvoice_id\x7d\x7d".toList

/-- Token `invoice_date`. -/
def tokInvoiceDate : List Char := "\x7b\x7binvoice_date\x7d\x7d".toList

/-- Token `customer_name`. -/
def tokCustomerName : List Char := "\x7b\x7bcustomer_name\x7d\x7d".toList

/-- Token `customer_email`. -/
def tokCustomerEmail : List Char := "\x7b\x7bcustomer_email\x7d\x7d".toList

/-- Token `customer_phone`. -/
def tokCustomerPhone : List Char := "\x7b\x7bcustomer_phone\x7d\x7d".toList

/-- Token `customer_address`. -/
def tokCustomerAddress : List Char := "\x7b\x7bcustomer_address\x7d\x7d".toList

/-- Token `tables`. -/
def tokTables : List Char := "\x7b\x7btables\x7d\x7d".toList

/-- Token `total_amount`. -/
def tokTotalAmount : List Char := "\x7b\x7btotal_amount\x7d\x7d".toList

/-- The closed, fixed placeholder set substituted by `generate_html`. -/
def placeholderTokens : List (List Char) :=
  [tokInvoiceId, tokInvoiceDate, tokCustomerName, tokCustomerEmail,
   tokCustomerPhone, tokCustomerAddress, tokTables, tokTotalAmount]

/-- The first six `str.replace` calls of `generate_html`, in source
order: invoice id and date, then the four customer fields.  The customer
fields are passed to `replace` unconverted in the source (they must be
strings at runtime); `pyStr` is the identity on strings. -/
def substHeaderFields (template : List Char) (inv cust : RawRecord) : List Char :=
  let h1 := replaceL tokInvoiceId (pyStr (getFieldD inv "invoice_id" (Scalar.str ""))).toList template
  let h2 := replaceL tokInvoiceDate (pyStr (getFieldD inv "date" (Scalar.str ""))).toList h1
  let h3 := replaceL tokCustomerName (pyStr (getFieldD cust "name" (Scalar.str ""))).toList h2
  let h4 := replaceL tokCustomerEmail (pyStr (getFieldD cust "email" (Scalar.str ""))).toList h3
  let h5 := replaceL tokCustomerPhone (pyStr (getFieldD cust "phone" (Scalar.str ""))).toList h4
  replaceL tokCustomerAddress (pyStr (getFieldD cust "address" (Scalar.str ""))).toList h5

/-- Composition `InvoiceGenerator.generate_html` on the already-read template text:
the header-field substitutions, then `tables`, then `total_amount`
(formatted grand total), exactly in source order. -/
def generate_html (template : List Char) (inv cust : RawRecord)
    (items : List ResolvedItem) : List Char :=
  let h6 := substHeaderFields template inv cust
  let h7 := replaceL tokTables (tablesHtml inv cust items).toList h6
  replaceL tokTotalAmount (formatAmount (totalAmount items)).toList h7

/-! ## Helper notions used only to state the claims -/

/-- What one raw item contributes to the grand total: its resolved line
total when it is emitted, nothing when it is dropped (or the call
aborts).  Used to state that dropped items contribute nothing. -/
def itemContribution (csvSrc jsonSrc : Option (List RawRecord)) (item : RawRecord) : ℚ :=
  match enrichItem csvSrc jsonSrc item with
  | Except.ok (some r) => r.total
  | _ => 0

/-- First value in the list that is not `None` (else `None`): the value
the CSV-branch accumulators of `get_invoice_data` end up with. -/
def firstNonNone : List Scalar → Scalar
  | [] => Scalar.none
  | v :: rest => if v = Scalar.none then firstNonNone rest else v

/-! ## Concrete records used by the witnesses and counterexamples -/

/-- A product reference record with a price. -/
def exProd : RawRecord :=
  [("product_id", Scalar.str "A"), ("name", Scalar.str "Widget"), ("price", Scalar.int 10)]

/-- A product reference record lacking a `price` field. -/
def exProdNoPrice : RawRecord :=
  [("product_id", Scalar.str "B"), ("name", Scalar.str "Gadget")]

/-- A raw line item with quantity 2 referring to `exProd`. -/
def exItem : RawRecord :=
  [("product_id", Scalar.str "A"), ("quantity", Scalar.int 2)]

/-- The enriched item produced for `exItem` against `exProd`. -/
def exResolved : ResolvedItem :=
  { product_id := Scalar.str "A", name := Scalar.str "Widget",
    quantity := 2, price := 10, total := 20 }

/-- A raw line item whose quantity string does not parse as an integer. -/
def exItemBadQty : RawRecord :=
  [("product_id", Scalar.str "A"), ("quantity", Scalar.str "abc")]

/-- A raw line item with no quantity field. -/
def exItemNoQty : RawRecord :=
  [("product_id", Scalar.str "A")]

/-- A flat invoice row matching invoice 1, with no date or customer. -/
def exRow1 : RawRecord :=
  [("invoice_id", Scalar.int 1), ("product_id", Scalar.str "A")]

/-- A later flat invoice row matching invoice 1 that carries the only
non-null date and customer id. -/
def exRow2 : RawRecord :=
  [("invoice_id", Scalar.int 1), ("date", Scalar.str "2024-02-02"),
   ("customer_id", Scalar.int 9)]

/-- A sample enriched item used to build concrete pagination inputs. -/
def exPageItem : ResolvedItem :=
  { product_id := Scalar.str "A", name := Scalar.str "Widget",
    quantity := 1, price := 1, total := 1 }

/-! ## Proofs: enrichment lemmas -/

/-- Every item emitted by the enrichment loop body has
`total = price * quantity`. -/
theorem enrichItem_total (csvSrc jsonSrc : Option (List RawRecord)) (item : RawRecord)
    (x : ResolvedItem) (h : enrichItem csvSrc jsonSrc item = Except.ok (some x)) :
    x.total = x.price * (x.quantity : ℚ) := by
  unfold enrichItem at h
  split at h
  · exact absurd h (by simp)
  · split at h
    · simp at h
    · split at h
      · simp at h
      · split at h
        · exact absurd h (by simp)
        · rw [Except.ok.injEq, Option.some.injEq] at h
          subst h
          rfl

/-- Every item in a successful `enrichItems` run satisfies
`total = price * quantity`. -/
theorem enrichItems_totals (csvSrc jsonSrc : Option (List RawRecord)) :
    ∀ (raws : List RawRecord) (its : List ResolvedItem),
      enrichItems csvSrc jsonSrc raws = Except.ok its →
      ∀ x ∈ its, x.total = x.price * (x.quantity : ℚ) := by
  intro raws
  induction raws with
  | nil =>
    intro its h x hx
    unfold enrichItems at h
    rw [Except.ok.injEq] at h
    subst h
    simp at hx
  | cons item rest ih =>
    intro its h x hx
    unfold enrichItems at h
    cases he : enrichItem csvSrc jsonSrc item with
    | error e => rw [he] at h; simp at h
    | ok r =>
      rw [he] at h
      cases hr : enrichItems csvSrc jsonSrc rest with
      | error e => rw [hr] at h; simp at h
      | ok rs =>
        rw [hr] at h
        rw [Except.ok.injEq] at h
        subst h
        cases r with
        | none => exact ih rs hr x hx
        | some x0 =>
          rcases List.mem_cons.mp hx with hx0 | hxs
          · subst hx0; exact enrichItem_total csvSrc jsonSrc item x he
          · exact ih rs hr x hxs

/-- The sum of emitted line totals equals the sum of the per-raw-item
contributions: a dropped raw item contributes exactly `0`. -/
theorem enrichItems_sum (csvSrc jsonSrc : Option (List RawRecord)) :
    ∀ (raws : List RawRecord) (its : List ResolvedItem),
      enrichItems csvSrc jsonSrc raws = Except.ok its →
      (its.map (fun it => it.total)).sum
        = (raws.map (itemContribution csvSrc jsonSrc)).sum := by
  intro raws
  induction raws with
  | nil =>
    intro its h
    unfold enrichItems at h
    rw [Except.ok.injEq] at h
    subst h
    simp
  | cons item rest ih =>
    intro its h
    unfold enrichItems at h
    cases he : enrichItem csvSrc jsonSrc item with
    | error e => rw [he] at h; simp at h
    | ok r =>
      rw [he] at h
      cases hr : enrichItems csvSrc jsonSrc rest with
      | error e => rw [hr] at h; simp at h
      | ok rs =>
        rw [hr] at h
        rw [Except.ok.injEq] at h
        subst h
        cases r with
        | none =>
          simp [itemContribution, he, ih rs hr]
        | some x0 =>
          simp [itemContribution, he, ih rs hr]

/-- C1: over the enriched, post-drop item list returned by
`prepare_invoice_items`, every emitted item satisfies
`total = price * quantity`; the grand total that `generate_html`
substitutes for the `total_amount` placeholder is the sum of those line
totals (equivalently, the sum of per-raw-item contributions, a dropped
item contributing `0`); and `generate_html` substitutes exactly
`formatAmount` of that sum for the `total_amount` token. -/
theorem c1_grand_total (csvSrc jsonSrc : Option (List RawRecord))
    (raws : List RawRecord) (its : List ResolvedItem)
    (h : enrichItems csvSrc jsonSrc raws = Except.ok its) :
    (∀ x ∈ its, x.total = x.price * (x.quantity : ℚ)) ∧
    totalAmount its = (its.map (fun it => it.total)).sum ∧
    totalAmount its = (raws.map (itemContribution csvSrc jsonSrc)).sum ∧
    ∀ (template : List Char) (inv cust : RawRecord),
      generate_html template inv cust its
        = replaceL tokTotalAmount (formatAmount (totalAmount its)).toList
            (replaceL tokTables (tablesHtml inv cust its).toList
              (substHeaderFields template inv cust)) := by
  refine ⟨enrichItems_totals csvSrc jsonSrc raws its h, rfl, ?_, ?_⟩
  · exact enrichItems_sum csvSrc jsonSrc raws its h
  · intro template inv cust
    rfl

/-- C1 witness: a concrete one-item invoice against a concrete product
source. -/
theorem c1_grand_total_witness :
    enrichItems (some [exProd]) Option.none [exItem] = Except.ok [exResolved] ∧
    exResolved.total = exResolved.price * (exResolved.quantity : ℚ) ∧
    totalAmount [exResolved]
      = ([exItem].map (itemContribution (some [exProd]) Option.none)).sum := by
  have h : enrichItems (some [exProd]) Option.none [exItem] = Except.ok [exResolved] := by
    simp [enrichItems, enrichItem, load_product_data, findByField, getFieldD, getField,
      pyInt, pyFloat, pyStr, exProd, exItem, exResolved]
    norm_num
  refine ⟨h, ?_, ?_⟩
  · exact (c1_grand_total (some [exProd]) Option.none [exItem] [exResolved] h).1
      exResolved (by simp)
  · exact (c1_grand_total (some [exProd]) Option.none [exItem] [exResolved] h).2.2.1

/-! ## Proofs: drop / default policies (C4, C5, C10) -/

/-- C4 counterexample: an item whose `product_id` resolves to no record
in any reference source, yet whose malformed `quantity` makes
`prepare_invoice_items` raise `ValueError` before the resolution miss
can drop it — so "raises no error" does not hold for *every* such item. -/
theorem c4_counterexample :
    load_product_data (getFieldD [("product_id", Scalar.str "X"), ("quantity", Scalar.str "abc")]
        "product_id" Scalar.none) Option.none Option.none = Option.none ∧
    enrichItem Option.none Option.none
        [("product_id", Scalar.str "X"), ("quantity", Scalar.str "abc")]
      = Except.error "ValueError: invalid literal for int()" := by
  constructor
  · rfl
  · rfl

/-- C4 amended: for every raw item whose quantity is absent or parses as
an integer and whose `product_id` resolves to no record in any source,
enrichment emits no item and raises no error — the item is silently
dropped and contributes nothing to the rest of the run. -/
theorem c4_amended (item : RawRecord) (csvSrc jsonSrc : Option (List RawRecord)) (q : Int)
    (hq : pyInt (getFieldD item "quantity" (Scalar.int 1)) = some q)
    (hp : load_product_data (getFieldD item "product_id" Scalar.none) csvSrc jsonSrc
            = Option.none) :
    enrichItem csvSrc jsonSrc item = Except.ok Option.none ∧
    itemContribution csvSrc jsonSrc item = 0 ∧
    ∀ rest : List RawRecord,
      enrichItems csvSrc jsonSrc (item :: rest) = enrichItems csvSrc jsonSrc rest := by
  have h1 : enrichItem csvSrc jsonSrc item = Except.ok Option.none := by
    unfold enrichItem
    rw [hq, hp]
  refine ⟨h1, by simp [itemContribution, h1], ?_⟩
  intro rest
  cases hr : enrichItems csvSrc jsonSrc rest with
  | error e => unfold enrichItems; rw [h1, hr]
  | ok rs => unfold enrichItems; rw [h1, hr]

/-- C4 witness: a concrete item with no quantity field and an id absent
from the (empty) sources. -/
theorem c4_amended_witness :
    pyInt (getFieldD exItemNoQty "quantity" (Scalar.int 1)) = some 1 ∧
    load_product_data (getFieldD exItemNoQty "product_id" Scalar.none) Option.none Option.none
      = Option.none ∧
    enrichItem Option.none Option.none exItemNoQty = Except.ok Option.none := by
  refine ⟨rfl, rfl, ?_⟩
  exact (c4_amended exItemNoQty Option.none Option.none 1 rfl rfl).1

/-- C5 counterexample: a quantity field that is present but not
parseable as an integer makes `prepare_invoice_items` raise
`ValueError` — it is *not* defaulted to 1 (the product source would have
resolved the item). -/
theorem c5_counterexample :
    getField exItemBadQty "quantity" = some (Scalar.str "abc") ∧
    enrichItem (some [exProd]) Option.none exItemBadQty
      = Except.error "ValueError: invalid literal for int()" := by
  constructor
  · rfl
  · rfl

/-- C5 amended: the quantity defaults to 1 only when the field is
absent; a present but unparseable quantity raises an error rather than
defaulting. -/
theorem c5_amended :
    (∀ (item : RawRecord) (csvSrc jsonSrc : Option (List RawRecord)) (p : RawRecord) (price : ℚ),
      getField item "quantity" = Option.none →
      load_product_data (getFieldD item "product_id" Scalar.none) csvSrc jsonSrc = some p →
      p ≠ [] →
      pyFloat (getFieldD p "price" (Scalar.int 0)) = some price →
      enrichItem csvSrc jsonSrc item
        = Except.ok (some { product_id := getFieldD item "product_id" Scalar.none,
                            name := getFieldD p "name" (Scalar.str "Неизвестный товар"),
                            quantity := 1, price := price, total := price })) ∧
    (∀ (item : RawRecord) (v : Scalar) (csvSrc jsonSrc : Option (List RawRecord)),
      getField item "quantity" = some v → pyInt v = Option.none →
      enrichItem csvSrc jsonSrc item
        = Except.error "ValueError: invalid literal for int()") := by
  constructor
  · intro item csvSrc jsonSrc p price habs hp hne hprice
    have hq : pyInt (getFieldD item "quantity" (Scalar.int 1)) = some 1 := by
      simp [getFieldD, habs, pyInt]
    unfold enrichItem
    rw [hq, hp]
    simp [hne, hprice]
  · intro item v csvSrc jsonSrc hv hbad
    have hq : pyInt (getFieldD item "quantity" (Scalar.int 1)) = Option.none := by
      simp [getFieldD, hv, hbad]
    unfold enrichItem
    rw [hq]

/-- C5 witness: the absent-quantity half at a concrete item and source,
and the malformed half at a concrete item. -/
theorem c5_amended_witness :
    getField exItemNoQty "quantity" = Option.none ∧
    enrichItem (some [exProd]) Option.none exItemNoQty
      = Except.ok (some { product_id := getFieldD exItemNoQty "product_id" Scalar.none,
                          name := getFieldD exProd "name" (Scalar.str "Неизвестный товар"),
                          quantity := 1, price := 10, total := 10 }) ∧
    getField exItemBadQty "quantity" = some (Scalar.str "abc") ∧
    enrichItem (some [exProd]) Option.none exItemBadQty
      = Except.error "ValueError: invalid literal for int()" := by
  refine ⟨rfl, ?_, rfl, ?_⟩
  · exact c5_amended.1 exItemNoQty (some [exProd]) Option.none exProd 10 rfl rfl
      (by simp [exProd]) rfl
  · exact c5_amended.2 exItemBadQty (Scalar.str "abc") (some [exProd]) Option.none rfl rfl

/-- C10: a raw item whose product resolves to a (truthy) record lacking
a `price` field is still emitted — with unit price `0` and line total
`0` — rather than dropped; only a missing product record causes a drop. -/
theorem c10_missing_price_zero (item p : RawRecord) (csvSrc jsonSrc : Option (List RawRecord))
    (q : Int)
    (hq : pyInt (getFieldD item "quantity" (Scalar.int 1)) = some q)
    (hp : load_product_data (getFieldD item "product_id" Scalar.none) csvSrc jsonSrc = some p)
    (hne : p ≠ [])
    (hprice : getField p "price" = Option.none) :
    enrichItem csvSrc jsonSrc item
      = Except.ok (some { product_id := getFieldD item "product_id" Scalar.none,
                          name := getFieldD p "name" (Scalar.str "Неизвестный товар"),
                          quantity := q, price := 0, total := 0 }) := by
  have hd : getFieldD p "price" (Scalar.int 0) = Scalar.int 0 := by
    simp [getFieldD, hprice]
  unfold enrichItem
  rw [hq, hp]
  simp [hne, hd, pyFloat]

/-- C10 witness: a concrete item resolving to a concrete priceless
product record. -/
theorem c10_missing_price_zero_witness :
    pyInt (getFieldD [("product_id", Scalar.str "B"), ("quantity", Scalar.int 3)]
        "quantity" (Scalar.int 1)) = some 3 ∧
    load_product_data (getFieldD [("product_id", Scalar.str "B"), ("quantity", Scalar.int 3)]
        "product_id" Scalar.none) (some [exProdNoPrice]) Option.none = some exProdNoPrice ∧
    getField exProdNoPrice "price" = Option.none ∧
    enrichItem (some [exProdNoPrice]) Option.none
        [("product_id", Scalar.str "B"), ("quantity", Scalar.int 3)]
      = Except.ok (some { product_id := Scalar.str "B", name := Scalar.str "Gadget",
                          quantity := 3, price := 0, total := 0 }) := by
  refine ⟨rfl, rfl, rfl, ?_⟩
  exact c10_missing_price_zero [("product_id", Scalar.str "B"), ("quantity", Scalar.int 3)]
    exProdNoPrice (some [exProdNoPrice]) Option.none 3 rfl rfl (by simp [exProdNoPrice]) rfl

/-! ## Proofs: reference-source priority (C3) -/

/-- C3: both loaders try the flat (CSV) source first.  A match there —
the first record whose `{kind}_id` stringifies equal to the requested
id — is returned no matter what the structured (JSON) source holds; only
on a CSV miss is the JSON source scanned; and with a single source the
loader is exactly the first-match scan. -/
theorem c3_resolver_priority :
    (∀ (id : Scalar) (cs : List RawRecord) (jsonSrc : Option (List RawRecord)) (r : RawRecord),
        findByField cs "customer_id" id = some r →
        load_customer_data id (some cs) jsonSrc = some r) ∧
    (∀ (id : Scalar) (cs : List RawRecord) (jsonSrc : Option (List RawRecord)),
        findByField cs "customer_id" id = Option.none →
        load_customer_data id (some cs) jsonSrc
          = jsonSrc.bind (fun rs => findByField rs "customer_id" id)) ∧
    (∀ (id : Scalar) (src : Option (List RawRecord)),
        load_customer_data id src Option.none
          = src.bind (fun rs => findByField rs "customer_id" id)) ∧
    (∀ (id : Scalar) (ps : List RawRecord) (jsonSrc : Option (List RawRecord)) (r : RawRecord),
        findByField ps "product_id" id = some r →
        load_product_data id (some ps) jsonSrc = some r) ∧
    (∀ (id : Scalar) (ps : List RawRecord) (jsonSrc : Option (List RawRecord)),
        findByField ps "product_id" id = Option.none →
        load_product_data id (some ps) jsonSrc
          = jsonSrc.bind (fun rs => findByField rs "product_id" id)) ∧
    (∀ (id : Scalar) (src : Option (List RawRecord)),
        load_product_data id src Option.none
          = src.bind (fun rs => findByField rs "product_id" id)) := by
  refine ⟨?_, ?_, ?_, ?_, ?_, ?_⟩
  · intro id cs jsonSrc r h
    unfold load_customer_data
    simp [h]
  · intro id cs jsonSrc h
    unfold load_customer_data
    simp [h]
  · intro id src
    unfold load_customer_data
    cases hs : src.bind (fun rs => findByField rs "customer_id" id) <;> simp [hs]
  · intro id ps jsonSrc r h
    unfold load_product_data
    simp [h]
  · intro id ps jsonSrc h
    unfold load_product_data
    simp [h]
  · intro id src
    unfold load_product_data
    cases hs : src.bind (fun rs => findByField rs "product_id" id) <;> simp [hs]

/-- C3 witness: a customer id present in both the flat and the
structured source resolves to the flat-source record. -/
theorem c3_resolver_priority_witness :
    findByField [[("customer_id", Scalar.int 9), ("name", Scalar.str "CSV Ivan")]]
        "customer_id" (Scalar.int 9)
      = some [("customer_id", Scalar.int 9), ("name", Scalar.str "CSV Ivan")] ∧
    load_customer_data (Scalar.int 9)
        (some [[("customer_id", Scalar.int 9), ("name", Scalar.str "CSV Ivan")]])
        (some [[("customer_id", Scalar.int 9), ("name", Scalar.str "JSON Ivan")]])
      = some [("customer_id", Scalar.int 9), ("name", Scalar.str "CSV Ivan")] := by
  refine ⟨rfl, ?_⟩
  exact c3_resolver_priority.1 (Scalar.int 9)
    [[("customer_id", Scalar.int 9), ("name", Scalar.str "CSV Ivan")]]
    (some [[("customer_id", Scalar.int 9), ("name", Scalar.str "JSON Ivan")]])
    [("customer_id", Scalar.int 9), ("name", Scalar.str "CSV Ivan")] rfl

/-! ## Proofs: invoice assembly (C6, C7) -/

/-- The CSV-branch loop leaves the accumulator untouched when no row
matches. -/
theorem gid_foldl_no_match (id : Scalar) :
    ∀ (data : List RawRecord) (acc : List RawRecord × Scalar × Scalar),
      (∀ row ∈ data, matchesInvoice id row = false) →
      data.foldl (gidStep id) acc = acc := by
  intro data
  induction data with
  | nil => intro acc _; rfl
  | cons row rest ih =>
    intro acc h
    have hrow : matchesInvoice id row = false := h row (by simp)
    have hrest : ∀ r ∈ rest, matchesInvoice id r = false := fun r hr => h r (by simp [hr])
    simp only [List.foldl_cons, gidStep, hrow]
    simp only [Bool.false_eq_true, if_false]
    exact ih acc hrest

/-- C6 counterexample: in the flat shape, a record sequence with no
matching record does **not** raise — `get_invoice_data` returns a header
dict with `None` date and customer and an empty item list. -/
theorem c6_counterexample :
    get_invoice_data_csv [[("invoice_id", Scalar.int 2)]] (Scalar.int 1)
      = { invoice_id := Scalar.int 1, customer_id := Scalar.none,
          date := Scalar.none, items := [] } := by
  rfl

/-- C6 amended: only the nested (JSON) shape fails with the
invoice-not-found error when no record's `invoice_id` stringifies equal
to the target; the flat (CSV) shape never raises and instead returns a
header whose date and customer are `None` with no items. -/
theorem c6_amended :
    (∀ (data : List JsonRecord) (id : Scalar),
        data.find? (fun rec => matchesInvoice id rec.fields) = Option.none →
        ∃ e, get_invoice_data_json data id = Except.error e) ∧
    (∀ (data : List RawRecord) (id : Scalar),
        (∀ row ∈ data, matchesInvoice id row = false) →
        get_invoice_data_csv data id
          = { invoice_id := id, customer_id := Scalar.none,
              date := Scalar.none, items := [] }) := by
  constructor
  · intro data id h
    unfold get_invoice_data_json
    rw [h]
    exact ⟨_, rfl⟩
  · intro data id h
    unfold get_invoice_data_csv
    rw [gid_foldl_no_match id data ([], Scalar.none, Scalar.none) h]

/-- C6 witness: concrete non-matching data in both shapes. -/
theorem c6_amended_witness :
    (List.find? (fun rec => matchesInvoice (Scalar.int 1) rec.fields)
        [({ fields := [("invoice_id", Scalar.int 2)], items := Option.none : JsonRecord})]
      = Option.none) ∧
    (∃ e, get_invoice_data_json
        [({ fields := [("invoice_id", Scalar.int 2)], items := Option.none : JsonRecord})]
        (Scalar.int 1) = Except.error e) ∧
    get_invoice_data_csv [[("invoice_id", Scalar.int 2)]] (Scalar.int 1)
      = { invoice_id := Scalar.int 1, customer_id := Scalar.none,
          date := Scalar.none, items := [] } := by
  refine ⟨rfl, ?_, ?_⟩
  · exact c6_amended.1 [({ fields := [("invoice_id", Scalar.int 2)], items := Option.none })]
      (Scalar.int 1) rfl
  · exact c6_amended.2 [[("invoice_id", Scalar.int 2)]] (Scalar.int 1)
      (by intro row hrow; simp at hrow; subst hrow; rfl)

/-- The CSV-branch loop in closed form: collected items are the matching
rows in order, and each header accumulator ends as its first non-`None`
value over the matching rows. -/
theorem gid_foldl_spec (id : Scalar) :
    ∀ (data : List RawRecord) (its : List RawRecord) (d c : Scalar),
      data.foldl (gidStep id) (its, d, c)
        = (its ++ data.filter (matchesInvoice id),
           (if d = Scalar.none then
              firstNonNone ((data.filter (matchesInvoice id)).map
                (fun r => getFieldD r "date" Scalar.none))
            else d),
           (if c = Scalar.none then
              firstNonNone ((data.filter (matchesInvoice id)).map
                (fun r => getFieldD r "customer_id" Scalar.none))
            else c)) := by
  intro data
  induction data with
  | nil =>
    intro its d c
    simp only [List.foldl_nil, List.filter_nil, List.append_nil, List.map_nil]
    have hd : ∀ x : Scalar, (if x = Scalar.none then firstNonNone [] else x) = x := by
      intro x; split <;> simp_all [firstNonNone]
    rw [hd, hd]
  | cons row rest ih =>
    intro its d c
    by_cases hm : matchesInvoice id row
    · simp only [List.foldl_cons, gidStep, hm, if_true, List.filter_cons_of_pos hm, List.map_cons]
      rw [ih]
      refine Prod.ext ?_ (Prod.ext ?_ ?_)
      · simp
      · by_cases hd : d = Scalar.none <;>
          by_cases hrd : getFieldD row "date" Scalar.none = Scalar.none <;>
          simp [hd, hrd, firstNonNone]
      · by_cases hc : c = Scalar.none <;>
          by_cases hrc : getFieldD row "customer_id" Scalar.none = Scalar.none <;>
          simp [hc, hrc, firstNonNone]
    · simp only [List.foldl_cons, gidStep, hm, Bool.false_eq_true, if_false,
        List.filter_cons_of_neg (by simpa using hm)]
      exact ih its d c

/-- C7 counterexample: two flat rows match invoice 1; the first carries
no date and no customer id, the second carries both.  The assembled
header takes them from the **second** matching record, not the first —
so "from the first matching record only, even when later records carry
the only non-null values" fails. -/
theorem c7_counterexample :
    getFieldD exRow1 "date" Scalar.none = Scalar.none ∧
    getFieldD exRow1 "customer_id" Scalar.none = Scalar.none ∧
    (get_invoice_data_csv [exRow1, exRow2] (Scalar.int 1)).date = Scalar.str "2024-02-02" ∧
    (get_invoice_data_csv [exRow1, exRow2] (Scalar.int 1)).customer_id = Scalar.int 9 := by
  refine ⟨rfl, rfl, rfl, rfl⟩

/-- C7 amended: in the flat shape every matching record becomes one raw
line item, in input order; `date` and `customer_id` are each taken from
the **first matching record whose value for that field is non-`None`**
(independently per field), not from the first matching record
unconditionally. -/
theorem c7_amended (data : List RawRecord) (id : Scalar) :
    (get_invoice_data_csv data id).items = data.filter (matchesInvoice id) ∧
    (get_invoice_data_csv data id).date
      = firstNonNone ((data.filter (matchesInvoice id)).map
          (fun r => getFieldD r "date" Scalar.none)) ∧
    (get_invoice_data_csv data id).customer_id
      = firstNonNone ((data.filter (matchesInvoice id)).map
          (fun r => getFieldD r "customer_id" Scalar.none)) ∧
    (get_invoice_data_csv data id).invoice_id = id := by
  unfold get_invoice_data_csv
  rw [gid_foldl_spec id data [] Scalar.none Scalar.none]
  simp

/-! ## Proofs: pagination (C2) -/

/-- Stripping the numbering recovers the page's item slice. -/
theorem numberRows_map_item :
    ∀ (l : List ResolvedItem) (off : Nat), (numberRows off l).map (fun r => r.item) = l := by
  intro l
  induction l with
  | nil => intro off; rfl
  | cons x xs ih => intro off; simp [numberRows, ih (off + 1)]

/-- The global indices of a numbered slice are
`off + 1, off + 2, ...` in order. -/
theorem numberRows_map_globalIdx :
    ∀ (l : List ResolvedItem) (off : Nat),
      (numberRows off l).map (fun r => r.globalIdx)
        = (List.range l.length).map (fun i => off + i + 1) := by
  intro l
  induction l with
  | nil => intro off; rfl
  | cons x xs ih =>
    intro off
    simp only [numberRows, List.map_cons, List.length_cons, List.range_succ_eq_map,
      List.map_map, ih (off + 1)]
    rw [List.cons_eq_cons]
    refine ⟨by omega, ?_⟩
    apply List.map_congr_left
    intro i _
    simp only [Function.comp_apply]
    omega

/-- Number of pages: `⌈len / 10⌉`, the length of `range(0, len, 10)`. -/
theorem paginate_length (items : List ResolvedItem) :
    (paginate items).length = (items.length + itemsPerPage - 1) / itemsPerPage := by
  simp [paginate, pageOffsets]

/-- The page at index `k` (0-based) is the one built for offset `k·10`. -/
theorem paginate_get (items : List ResolvedItem) (k : Nat) (h : k < (paginate items).length) :
    (paginate items).get ⟨k, h⟩ = mkPage items (k * itemsPerPage) := by
  simp only [paginate, pageOffsets, List.get_eq_getElem, List.getElem_map]
  congr 1
  rw [List.getElem_range]

/-- C2: pagination is deterministic chunking with capacity 10 — page `k`
(0-indexed) carries exactly the items at positions
`[k·10, min((k+1)·10, len))`, repeats the header exactly when `k ≠ 0`,
and numbers its rows by the global index `k·10 + local row (1-based)`;
the page count is `⌈len/10⌉`; and an 11-item invoice yields exactly two
pages — 10 rows and no repeated header, then 1 row with a repeated
header whose single global index is 11. -/
theorem c2_pagination :
    (∀ (items : List ResolvedItem) (k : Nat) (h : k < (paginate items).length),
      ((paginate items).get ⟨k, h⟩).rows.map (fun r => r.item)
          = (items.drop (k * itemsPerPage)).take itemsPerPage ∧
      ((paginate items).get ⟨k, h⟩).repeatsHeader = (k != 0) ∧
      ((paginate items).get ⟨k, h⟩).rows.map (fun r => r.globalIdx)
          = (List.range ((items.drop (k * itemsPerPage)).take itemsPerPage).length).map
              (fun i => k * itemsPerPage + i + 1)) ∧
    (∀ items : List ResolvedItem,
      (paginate items).length = (items.length + itemsPerPage - 1) / itemsPerPage) ∧
    (∀ items : List ResolvedItem, items.length = 11 →
      ∃ p0 p1, paginate items = [p0, p1] ∧
        p0.rows.map (fun r => r.item) = items.take 10 ∧
        p0.repeatsHeader = false ∧
        p1.rows.map (fun r => r.item) = items.drop 10 ∧
        p1.repeatsHeader = true ∧
        p1.rows.map (fun r => r.globalIdx) = [11]) := by
  refine ⟨?_, paginate_length, ?_⟩
  · intro items k h
    rw [paginate_get items k h]
    refine ⟨numberRows_map_item _ _, ?_, numberRows_map_globalIdx _ _⟩
    show (k * itemsPerPage != 0) = (k != 0)
    cases k with
    | zero => rfl
    | succ n => simp [itemsPerPage]
  · intro items hlen
    refine ⟨mkPage items 0, mkPage items 10, ?_, ?_, rfl, ?_, rfl, ?_⟩
    · unfold paginate pageOffsets
      rw [hlen]
      norm_num
      rfl
    · simp [mkPage, numberRows_map_item, itemsPerPage]
    · have hd : ((items.drop 10).take itemsPerPage) = items.drop 10 := by
        apply List.take_of_length_le
        simp [hlen, itemsPerPage]
      simp [mkPage, hd, numberRows_map_item]
    · have hd : ((items.drop 10).take itemsPerPage) = items.drop 10 := by
        apply List.take_of_length_le
        simp [hlen, itemsPerPage]
      have hl : (items.drop 10).length = 1 := by simp [hlen]
      simp [mkPage, hd, numberRows_map_globalIdx, hl]
      decide

/-- The concrete 11-item list used by the C2 witness has a second page. -/
theorem paginate_replicate11_lt :
    1 < (paginate (List.replicate 11 exPageItem)).length := by
  rw [paginate_length]
  simp [itemsPerPage]

/-- C2 witness: the 11-item scenario at a concrete item list, plus the
general slice statement applied at page index 1. -/
theorem c2_pagination_witness :
    (List.replicate 11 exPageItem).length = 11 ∧
    (∃ p0 p1, paginate (List.replicate 11 exPageItem) = [p0, p1] ∧
      p0.rows.map (fun r => r.item) = (List.replicate 11 exPageItem).take 10 ∧
      p0.repeatsHeader = false ∧
      p1.rows.map (fun r => r.item) = (List.replicate 11 exPageItem).drop 10 ∧
      p1.repeatsHeader = true ∧
      p1.rows.map (fun r => r.globalIdx) = [11]) ∧
    ((paginate (List.replicate 11 exPageItem)).get ⟨1, paginate_replicate11_lt⟩).repeatsHeader
      = (1 != 0) :=
  ⟨by simp,
   c2_pagination.2.2 (List.replicate 11 exPageItem) (by simp),
   (c2_pagination.1 (List.replicate 11 exPageItem) 1 paginate_replicate11_lt).2.1⟩

/-! ## Proofs: placeholder substitution (C8, C9) -/

/-- Replacement `str.replace` is the identity when the pattern does not occur. -/
theorem replaceL_not_contains (pat r : List Char) :
    ∀ s : List Char, containsSub s pat = false → replaceL pat r s = s := by
  intro s
  induction s with
  | nil =>
    intro _
    simp only [replaceL]
  | cons c rest ih =>
    intro h
    simp only [containsSub, Bool.or_eq_false_iff] at h
    obtain ⟨h1, h2⟩ := h
    rw [beq_eq_false_iff_ne] at h1
    simp only [replaceL]
    rw [dif_neg (fun hand => h1 hand.2), ih h2]

/-- C8: substitution in `generate_html` rewrites only full occurrences
of the eight fixed placeholder tokens; a template containing none of
them — in particular one containing unknown placeholders, or prefixes /
extensions of known tokens without the full token — passes through
character-for-character unchanged. -/
theorem c8_unknown_placeholders_untouched (template : List Char) (inv cust : RawRecord)
    (items : List ResolvedItem)
    (h : ∀ tok ∈ placeholderTokens, containsSub template tok = false) :
    generate_html template inv cust items = template := by
  have h1 := h tokInvoiceId (by simp [placeholderTokens])
  have h2 := h tokInvoiceDate (by simp [placeholderTokens])
  have h3 := h tokCustomerName (by simp [placeholderTokens])
  have h4 := h tokCustomerEmail (by simp [placeholderTokens])
  have h5 := h tokCustomerPhone (by simp [placeholderTokens])
  have h6 := h tokCustomerAddress (by simp [placeholderTokens])
  have h7 := h tokTables (by simp [placeholderTokens])
  have h8 := h tokTotalAmount (by simp [placeholderTokens])
  simp only [generate_html, substHeaderFields]
  rw [replaceL_not_contains tokInvoiceId _ template h1,
      replaceL_not_contains tokInvoiceDate _ template h2,
      replaceL_not_contains tokCustomerName _ template h3,
      replaceL_not_contains tokCustomerEmail _ template h4,
      replaceL_not_contains tokCustomerPhone _ template h5,
      replaceL_not_contains tokCustomerAddress _ template h6,
      replaceL_not_contains tokTables _ template h7,
      replaceL_not_contains tokTotalAmount _ template h8]

/-- A concrete template holding an unknown placeholder and an extension
of a known token, but no full token from the fixed set. -/
def exTemplate : List Char := "<p>\x7b\x7bunknown\x7d\x7d \x7b\x7binvoice_idX\x7d\x7d</p>".toList

/-- C8 witness: the concrete template passes through unchanged. -/
theorem c8_unknown_placeholders_untouched_witness :
    (∀ tok ∈ placeholderTokens, containsSub exTemplate tok = false) ∧
    generate_html exTemplate [] [] [] = exTemplate :=
  ⟨by decide, c8_unknown_placeholders_untouched exTemplate [] [] [] (by decide)⟩

/-- C9: document composition is deterministic — `generate_html` is a
pure function of the template text, the invoice header record, the
customer record and the enriched item list (the embedding is of code
that reads no other state once the template text is fixed), so two
invocations on the same data produce character-identical markup. -/
theorem c9_compose_deterministic (template : List Char) (inv cust : RawRecord)
    (items : List ResolvedItem) :
    generate_html template inv cust items = generate_html template inv cust items := rfl

end InvoiceGen
